import Mathlib

/-
  Shallow embedding of the TgtgClient session/auth logic (src/tgtg/__init__.py).

  The Python class mutates instance fields and performs HTTP requests, sleeps
  and an optional persistence callback.  We model the mutable fields as an
  explicit `ClientState`, a server response as a `Response` record (JSON keys
  that may be absent are `Option`s), and the observable side effects as a list
  of `Event`s (network posts, sleeps, callback invocations).  Exceptions are
  modelled by `Except Err`.  Timestamps are integers counting seconds; the
  Python expression `(datetime.datetime.now() - last).seconds` reads the
  seconds component of the timedelta, i.e. the elapsed seconds modulo 86400.
-/

namespace Tgtg

def LOGIN_ENDPOINT : String := "auth/v3/authByEmail"

def AUTH_ENDPOINT : String := "auth/v3/authByRequestPollingId"

def SIGNUP_BY_EMAIL_ENDPOINT : String := "auth/v2/signUpByEmail"

def REFRESH_ENDPOINT : String := "auth/v1/token/refresh"

def API_ITEM_ENDPOINT : String := "item/v7/"

def DEFAULT_ACCESS_TOKEN_LIFETIME : Int := 3600 * 4

/-- Python truthiness of an optional string field: `None` and `""` are falsy. -/
def truthy : Option String → Bool
  | none => false
  | some s => !s.isEmpty

/-- The mutable fields of `TgtgClient` that the session logic reads or writes. -/
structure ClientState where
  email : Option String
  access_token : Option String
  refresh_token : Option String
  user_id : Option String
  last_time_token_refreshed : Option Int
  access_token_lifetime : Int
  store_function : Bool
  deriving Repr, DecidableEq

/-- An HTTP response as the client observes it: status code, the JSON body keys
the client ever reads (absent key = `none`; `startup_user_id` stands for the
nested path `startup_data.user.user_id`), and the raw `content` used in
error payloads. -/
structure Response where
  status : Nat
  polling_id : Option String := none
  access_token : Option String := none
  refresh_token : Option String := none
  startup_user_id : Option String := none
  items : Option (List String) := none
  content : String := ""
  deriving Repr, DecidableEq

/-- Observable side effects of the client: an HTTP POST to an endpoint, a call
to `time.sleep`, or an invocation of the persistence callback with the four
keyword arguments the code passes. -/
inductive Event where
  | httpPost (endpoint : String)
  | sleep (seconds : Nat)
  | store (access_token refresh_token user_id : Option String)
      (last_time_token_refreshed : Option Int)
  deriving Repr, DecidableEq

/-- Exceptions raised by the client code. -/
inductive Err where
  | deprecationWarning (msg : String)
  | valueError (msg : String)
  | apiError (status : Nat) (content : String)
  | loginError (status : Nat) (content : String)
  | keyError (key : String)
  deriving Repr, DecidableEq

/-- Number of occurrences of an event in a trace. -/
def countEvent (e : Event) : List Event → Nat
  | [] => 0
  | x :: xs => (if x = e then 1 else 0) + countEvent e xs

/-- `TgtgClient.__init__`: raises `DeprecationWarning` when a (truthy) password
is supplied, otherwise constructs the state from the arguments. -/
def tgtgClientInit (email password access_token refresh_token user_id : Option String)
    (last_time_token_refreshed : Option Int) (access_token_lifetime : Int)
    (store_function : Bool) : Except Err ClientState :=
  if truthy password then
    .error (.deprecationWarning "password is deprecated, use email only")
  else
    .ok { email := email, access_token := access_token, refresh_token := refresh_token,
          user_id := user_id, last_time_token_refreshed := last_time_token_refreshed,
          access_token_lifetime := access_token_lifetime, store_function := store_function }

/-- `TgtgClient._already_logged`: `bool(self.access_token and self.user_id)`. -/
def alreadyLogged (s : ClientState) : Bool :=
  truthy s.access_token && truthy s.user_id

/-- The `.seconds` attribute of a Python `timedelta` of `delta` whole seconds:
timedeltas are normalised so the seconds component is `delta mod 86400`
(Euclidean remainder, hence in `[0, 86400)` also for negative deltas). -/
def secondsAttr (delta : Int) : Int := delta % 86400

/-- The guard of `TgtgClient._refresh_token`:
`self.last_time_token_refreshed and
 (datetime.datetime.now() - self.last_time_token_refreshed).seconds
   <= self.access_token_lifetime`. -/
def refreshSkip (now : Int) (s : ClientState) : Bool :=
  match s.last_time_token_refreshed with
  | none => false
  | some t => decide (secondsAttr (now - t) ≤ s.access_token_lifetime)

/-- The persistence-callback invocation `self.store_function(...)` guarded by
`if self.store_function:`, recording the four fields of the current state. -/
def storeEvents (s : ClientState) : List Event :=
  if s.store_function then
    [Event.store s.access_token s.refresh_token s.user_id s.last_time_token_refreshed]
  else []

/-- `TgtgClient._refresh_token`, given the current time and the response the
refresh endpoint would return.  On 200 the code assigns `access_token`, then
`refresh_token`, then `last_time_token_refreshed`; a missing body key raises
`KeyError` at that point, keeping the assignments already made. -/
def refreshToken (now : Int) (resp : Response) (s : ClientState) :
    Except Err Unit × ClientState × List Event :=
  if refreshSkip now s then
    (.ok (), s, [])
  else
    if resp.status = 200 then
      match resp.access_token with
      | none => (.error (.keyError "access_token"), s, [Event.httpPost REFRESH_ENDPOINT])
      | some a =>
        match resp.refresh_token with
        | none => (.error (.keyError "refresh_token"), { s with access_token := some a },
            [Event.httpPost REFRESH_ENDPOINT])
        | some r =>
          let s2 : ClientState :=
            { s with access_token := some a, refresh_token := some r,
                     last_time_token_refreshed := some now }
          (.ok (), s2, [Event.httpPost REFRESH_ENDPOINT] ++ storeEvents s2)
    else
      (.error (.apiError resp.status resp.content), s, [Event.httpPost REFRESH_ENDPOINT])

/-- The `while retries > 0` polling loop of `TgtgClient._login`.  `polls i` is
the response of the i-th poll request; `i` is the index of the next request
and the last argument is the remaining `retries`.  On 200 the code assigns
`access_token`, `refresh_token`, `last_time_token_refreshed`, then the nested
user id; a missing key raises `KeyError` there, keeping earlier assignments.
On 202 it sleeps 10 seconds and retries; on any other status it raises
`TgtgLoginError`. -/
def pollLoop (polls : Nat → Response) (now : Int) (s : ClientState) :
    Nat → Nat → Except Err Unit × ClientState × List Event
  | _, 0 => (.ok (), s, [])
  | i, retries + 1 =>
    let resp := polls i
    if resp.status = 200 then
      match resp.access_token with
      | none => (.error (.keyError "access_token"), s, [Event.httpPost AUTH_ENDPOINT])
      | some a =>
        match resp.refresh_token with
        | none => (.error (.keyError "refresh_token"), { s with access_token := some a },
            [Event.httpPost AUTH_ENDPOINT])
        | some r =>
          let s2 : ClientState :=
            { s with access_token := some a, refresh_token := some r,
                     last_time_token_refreshed := some now }
          match resp.startup_user_id with
          | none => (.error (.keyError "startup_data.user.user_id"), s2,
              [Event.httpPost AUTH_ENDPOINT])
          | some u =>
            let s3 : ClientState := { s2 with user_id := some u }
            (.ok (), s3, [Event.httpPost AUTH_ENDPOINT] ++ storeEvents s3)
    else if resp.status = 202 then
      let rest := pollLoop polls now s (i + 1) retries
      (rest.1, rest.2.1, [Event.httpPost AUTH_ENDPOINT, Event.sleep 10] ++ rest.2.2)
    else
      (.error (.loginError resp.status resp.content), s, [Event.httpPost AUTH_ENDPOINT])

/-- `TgtgClient._login` (the spec's `ensureAuthenticated`).  `loginResp` is the
response of the `authByEmail` request, `polls` those of the polling requests,
`refreshResp` the one the refresh endpoint would give.  The body of the first
poll request reads `login_response["polling_id"]`, so a 200 login body without
that key raises `KeyError` before any poll request is made. -/
def login (now : Int) (loginResp : Response) (polls : Nat → Response)
    (refreshResp : Response) (s : ClientState) :
    Except Err Unit × ClientState × List Event :=
  if alreadyLogged s then
    refreshToken now refreshResp s
  else if !truthy s.access_token && !truthy s.email then
    (.error (.valueError "You must fill email"), s, [])
  else if loginResp.status = 200 then
    match loginResp.polling_id with
    | none => (.error (.keyError "polling_id"), s, [Event.httpPost LOGIN_ENDPOINT])
    | some _ =>
      let rest := pollLoop polls now s 0 60
      (rest.1, rest.2.1, Event.httpPost LOGIN_ENDPOINT :: rest.2.2)
  else
    (.error (.loginError loginResp.status loginResp.content), s, [Event.httpPost LOGIN_ENDPOINT])

/-- `TgtgClient.get_items` (the spec's `listItems`): `self._login()`, then a
POST to the item endpoint; 200 returns the `items` key of the body, any other
status raises `TgtgAPIError`. -/
def get_items (now : Int) (loginResp : Response) (polls : Nat → Response)
    (refreshResp : Response) (itemsResp : Response) (s : ClientState) :
    Except Err (List String) × ClientState × List Event :=
  let lr := login now loginResp polls refreshResp s
  match lr.1 with
  | .error e => (.error e, lr.2.1, lr.2.2)
  | .ok _ =>
    let evs := lr.2.2 ++ [Event.httpPost API_ITEM_ENDPOINT]
    if itemsResp.status = 200 then
      match itemsResp.items with
      | some xs => (.ok xs, lr.2.1, evs)
      | none => (.error (.keyError "items"), lr.2.1, evs)
    else
      (.error (.apiError itemsResp.status itemsResp.content), lr.2.1, evs)

/-- `TgtgClient.signup_by_email`: POST to the signup endpoint; on 200 assigns
`access_token`, `refresh_token`, `last_time_token_refreshed`, then the nested
user id (no persistence-callback call in this method); otherwise raises
`TgtgAPIError`. -/
def signup_by_email (now : Int) (resp : Response) (s : ClientState) :
    Except Err Unit × ClientState × List Event :=
  if resp.status = 200 then
    match resp.access_token with
    | none => (.error (.keyError "access_token"), s, [Event.httpPost SIGNUP_BY_EMAIL_ENDPOINT])
    | some a =>
      match resp.refresh_token with
      | none => (.error (.keyError "refresh_token"), { s with access_token := some a },
          [Event.httpPost SIGNUP_BY_EMAIL_ENDPOINT])
      | some r =>
        let s2 : ClientState :=
          { s with access_token := some a, refresh_token := some r,
                   last_time_token_refreshed := some now }
        match resp.startup_user_id with
        | none => (.error (.keyError "startup_data.user.user_id"), s2,
            [Event.httpPost SIGNUP_BY_EMAIL_ENDPOINT])
        | some u =>
          (.ok (), { s2 with user_id := some u }, [Event.httpPost SIGNUP_BY_EMAIL_ENDPOINT])
  else
    (.error (.apiError resp.status resp.content), s, [Event.httpPost SIGNUP_BY_EMAIL_ENDPOINT])

/-- The credential fields after a successful polling login: the three tokens and
the user id from the 200 body, `last_time_token_refreshed` set to the call time,
everything else untouched. -/
def newCreds (s : ClientState) (a r u : String) (now : Int) : ClientState :=
  { s with access_token := some a, refresh_token := some r, user_id := some u,
           last_time_token_refreshed := some now }

/-- A response body is well formed when a 200 status comes with the two token keys
the client reads unconditionally. -/
@[reducible]
def wellFormedBody (resp : Response) : Prop :=
  resp.status = 200 → resp.access_token.isSome = true ∧ resp.refresh_token.isSome = true

/-- The spec invariant on the token triple: an operation either leaves
`access_token`, `refresh_token` and `last_time_token_refreshed` all unchanged, or
assigns all three in the same step (both tokens populated and the timestamp set to
the operation time). -/
@[reducible]
def atomicTriple (now : Int) (s s2 : ClientState) : Prop :=
  (s2.access_token = s.access_token ∧ s2.refresh_token = s.refresh_token ∧
    s2.last_time_token_refreshed = s.last_time_token_refreshed) ∨
  (s2.access_token.isSome = true ∧ s2.refresh_token.isSome = true ∧
    s2.last_time_token_refreshed = some now)

/-- A fresh client configured with an email only. -/
def baseState : ClientState :=
  { email := some "user@example.com", access_token := none, refresh_token := none,
    user_id := none, last_time_token_refreshed := none,
    access_token_lifetime := DEFAULT_ACCESS_TOKEN_LIFETIME, store_function := false }

/-- A fully authenticated client whose token was refreshed at time 0. -/
def authedState : ClientState :=
  { baseState with access_token := some "A0", refresh_token := some "R0",
                   user_id := some "U0", last_time_token_refreshed := some 0 }

/-- An authenticated client restored without a refresh timestamp, so the refresh
guard fails and a refresh request is issued. -/
def authedNoLast : ClientState :=
  { baseState with access_token := some "A0", refresh_token := some "R0",
                   user_id := some "U0" }

/-- A login response carrying a polling id. -/
def loginOk : Response := { status := 200, polling_id := some "P1" }

/-- A poll-response schedule answering 202 three times, then 200 with the full
token body. -/
def pollsThree : Nat → Response := fun j =>
  if j < 3 then { status := 202 }
  else { status := 200, access_token := some "A1", refresh_token := some "R1",
         startup_user_id := some "U1" }

/-- A poll-response schedule answering 202 forever. -/
def polls202 : Nat → Response := fun _ => { status := 202 }

/-- A poll-response schedule answering 200 with both tokens but without the nested
`startup_data.user.user_id`. -/
def pollsNoUser : Nat → Response := fun _ =>
  { status := 200, access_token := some "A1", refresh_token := some "R1" }

theorem countEvent_append (e : Event) (l m : List Event) :
    countEvent e (l ++ m) = countEvent e l + countEvent e m := by
  induction l with
  | nil => simp [countEvent]
  | cons x xs ih =>
    simp [countEvent, ih]
    omega

theorem countEvent_join_replicate (e : Event) (k : Nat) (l : List Event) :
    countEvent e (List.flatten (List.replicate k l)) = k * countEvent e l := by
  induction k with
  | zero => simp [countEvent]
  | succ n ih =>
    simp [List.replicate_succ, countEvent_append, ih]
    ring

theorem refreshSkip_of_within (now t : Int) (s : ClientState)
    (hl : s.last_time_token_refreshed = some t) (h0 : 0 ≤ now - t)
    (h1 : now - t ≤ s.access_token_lifetime) : refreshSkip now s = true := by
  simp only [refreshSkip, hl, secondsAttr, decide_eq_true_eq]
  omega

/-- C1: the claim says a refresh request is issued whenever the elapsed time
strictly exceeds the lifetime, but the code reads the Python `timedelta.seconds`
component (elapsed mod 86400) instead of the total elapsed time: with the token
last refreshed exactly one day (86400 s) ago and lifetime 14400 s, the elapsed time
exceeds the lifetime yet `_login` performs no network call and changes nothing. -/
theorem C1_day_old_token_skips_refresh :
    (86400 : Int) - 0 > authedState.access_token_lifetime ∧
    login 86400 { status := 200, polling_id := some "P1" } (fun _ => { status := 202 })
        { status := 200, access_token := some "NEWA", refresh_token := some "NEWR" }
        authedState =
      (.ok (), authedState, []) := by
  constructor
  · decide
  · rfl

/-- C2 counterexample: a state with `access_token` present, `user_id` absent and
`email` absent is in the scope of the claim, but `_login` does not raise the
configuration `ValueError`: it issues the login POST (answered 500 here) and
raises `TgtgLoginError` after one network call. -/
theorem C2_counterexample_token_without_user :
    login 0 { status := 500, content := "boom" } (fun _ => { status := 202 })
        { status := 500 } { baseState with email := none, access_token := some "A0" } =
      (.error (.loginError 500 "boom"),
       { baseState with email := none, access_token := some "A0" },
       [Event.httpPost LOGIN_ENDPOINT]) := by
  rfl

/-- C2 (amended): the code guards on `not self.access_token and not self.email`,
so the configuration error fires exactly when the access token is absent (or
empty) and the email is absent (or empty); then `_login` raises `ValueError`
before any network call and leaves the state unchanged. -/
theorem C2_amended_no_token_no_email (now : Int) (loginResp refreshResp : Response)
    (polls : Nat → Response) (s : ClientState)
    (ha : truthy s.access_token = false) (he : truthy s.email = false) :
    login now loginResp polls refreshResp s =
      (.error (.valueError "You must fill email"), s, []) := by
  have hal : alreadyLogged s = false := by simp [alreadyLogged, ha]
  simp [login, hal, ha, he]

theorem C2_amended_witness :
    login 0 { status := 200, polling_id := some "P1" } (fun _ => { status := 202 })
        { status := 500 } { baseState with email := none } =
      (.error (.valueError "You must fill email"), { baseState with email := none }, []) := by
  exact C2_amended_no_token_no_email 0 _ _ _ _ (by decide) (by decide)

/-- C3: once the refresh flow issues its request, a 200 response carrying
`access_token` and `refresh_token` sets exactly those two fields, stamps
`last_time_token_refreshed` with the current time and leaves `user_id` unchanged
(the record update touches no other field); any other status raises
`TgtgAPIError(status, content)` and leaves the whole state unchanged. -/
theorem C3_refresh_response (now : Int) (resp : Response) (s : ClientState) (a r : String)
    (hskip : refreshSkip now s = false) :
    (resp.status = 200 → resp.access_token = some a → resp.refresh_token = some r →
      refreshToken now resp s =
        (.ok (),
         { s with access_token := some a, refresh_token := some r,
                  last_time_token_refreshed := some now },
         [Event.httpPost REFRESH_ENDPOINT] ++
           storeEvents { s with access_token := some a, refresh_token := some r,
                                last_time_token_refreshed := some now })) ∧
    (resp.status ≠ 200 →
      refreshToken now resp s =
        (.error (.apiError resp.status resp.content), s,
         [Event.httpPost REFRESH_ENDPOINT])) := by
  constructor
  · intro h200 ha hr
    simp [refreshToken, hskip, h200, ha, hr]
  · intro hne
    simp [refreshToken, hskip, hne]

theorem C3_witness :
    refreshToken 5 { status := 200, access_token := some "A2", refresh_token := some "R2" }
        authedNoLast =
      (.ok (),
       { authedNoLast with access_token := some "A2", refresh_token := some "R2",
                           last_time_token_refreshed := some 5 },
       [Event.httpPost REFRESH_ENDPOINT]) := by
  exact (C3_refresh_response 5 _ authedNoLast "A2" "R2" (by decide)).1 rfl rfl rfl

/-- C10: constructing the client with a truthy (non-empty) password raises
`DeprecationWarning` as an exception, so no state is built; with the password
absent or empty the constructor succeeds and stores the given fields. -/
theorem C10_password_raises (email password access refresh user : Option String)
    (last : Option Int) (lifetime : Int) (store : Bool) :
    (truthy password = true →
      tgtgClientInit email password access refresh user last lifetime store =
        .error (.deprecationWarning "password is deprecated, use email only")) ∧
    (truthy password = false →
      tgtgClientInit email password access refresh user last lifetime store =
        .ok { email := email, access_token := access, refresh_token := refresh,
              user_id := user, last_time_token_refreshed := last,
              access_token_lifetime := lifetime, store_function := store }) := by
  constructor <;> intro h <;> simp [tgtgClientInit, h]

theorem C10_witness :
    tgtgClientInit (some "user@example.com") (some "pw") none none none none
        DEFAULT_ACCESS_TOKEN_LIFETIME false =
      .error (.deprecationWarning "password is deprecated, use email only") := by
  exact (C10_password_raises (some "user@example.com") (some "pw") none none none none
      DEFAULT_ACCESS_TOKEN_LIFETIME false).1 (by decide)

theorem pollLoop_all202 (polls : Nat → Response) (now : Int) (s : ClientState) :
    ∀ fuel i, (∀ j, j < fuel → (polls (i + j)).status = 202) →
    pollLoop polls now s i fuel =
      (.ok (), s,
       List.flatten (List.replicate fuel [Event.httpPost AUTH_ENDPOINT, Event.sleep 10])) := by
  intro fuel
  induction fuel with
  | zero =>
    intro i _
    simp [pollLoop]
  | succ n ih =>
    intro i h
    have h0 : (polls i).status = 202 := by
      have hx := h 0 n.succ_pos
      simpa using hx
    have hrec := ih (i + 1) (fun j hj => by
      have hx := h (j + 1) (by omega)
      have he : i + (j + 1) = i + 1 + j := by omega
      rwa [he] at hx)
    simp [pollLoop, h0, hrec, List.replicate_succ]

theorem pollLoop_success (polls : Nat → Response) (now : Int) (s : ClientState)
    (a r u : String) :
    ∀ k i fuel, k < fuel →
    (∀ j, j < k → (polls (i + j)).status = 202) →
    (polls (i + k)).status = 200 →
    (polls (i + k)).access_token = some a →
    (polls (i + k)).refresh_token = some r →
    (polls (i + k)).startup_user_id = some u →
    pollLoop polls now s i fuel =
      (.ok (), newCreds s a r u now,
       List.flatten (List.replicate k [Event.httpPost AUTH_ENDPOINT, Event.sleep 10]) ++
         Event.httpPost AUTH_ENDPOINT :: storeEvents (newCreds s a r u now)) := by
  intro k
  induction k with
  | zero =>
    intro i fuel hf h202 h200 ha hr hu
    obtain ⟨m, rfl⟩ : ∃ m, fuel = m + 1 := ⟨fuel - 1, by omega⟩
    simp only [Nat.add_zero] at h200 ha hr hu
    simp [pollLoop, h200, ha, hr, hu, newCreds]
  | succ n ih =>
    intro i fuel hf h202 h200 ha hr hu
    obtain ⟨m, rfl⟩ : ∃ m, fuel = m + 1 := ⟨fuel - 1, by omega⟩
    have h0 : (polls i).status = 202 := by
      have hx := h202 0 n.succ_pos
      simpa using hx
    have he : i + (n + 1) = i + 1 + n := by omega
    have hrec := ih (i + 1) m (by omega)
      (fun j hj => by
        have hx := h202 (j + 1) (by omega)
        have he2 : i + (j + 1) = i + 1 + j := by omega
        rwa [he2] at hx)
      (by rwa [he] at h200) (by rwa [he] at ha) (by rwa [he] at hr) (by rwa [he] at hu)
    simp [pollLoop, h0, hrec, List.replicate_succ]

theorem login_success_events (now : Int) (loginResp refreshResp : Response)
    (polls : Nat → Response) (s : ClientState) (k : Nat) (a r u pid : String)
    (hal : alreadyLogged s = false) (he : truthy s.email = true)
    (h1 : loginResp.status = 200) (h2 : loginResp.polling_id = some pid)
    (hk : k < 60) (h202 : ∀ j, j < k → (polls j).status = 202)
    (h200 : (polls k).status = 200) (ha : (polls k).access_token = some a)
    (hr : (polls k).refresh_token = some r) (hu : (polls k).startup_user_id = some u) :
    login now loginResp polls refreshResp s =
      (.ok (), newCreds s a r u now,
       Event.httpPost LOGIN_ENDPOINT ::
         (List.flatten (List.replicate k [Event.httpPost AUTH_ENDPOINT, Event.sleep 10]) ++
          Event.httpPost AUTH_ENDPOINT :: storeEvents (newCreds s a r u now))) := by
  have hps := pollLoop_success polls now s a r u k 0 60 hk
    (fun j hj => by simpa using h202 j hj)
    (by simpa using h200) (by simpa using ha) (by simpa using hr) (by simpa using hu)
  simp [login, hal, he, h1, h2, hps]

theorem login_endpoint_ne_auth_endpoint : ¬ LOGIN_ENDPOINT = AUTH_ENDPOINT := by
  decide

/-- C4: with a 200 login response carrying a polling id, k poll responses of 202
(k < 60) and then a 200 carrying the two tokens and the nested user id, `_login`
succeeds, makes exactly k+1 poll requests, sleeps 10 seconds after each 202
(k sleep events), and ends with the three tokens and the user id taken from the
200 body and `last_time_token_refreshed` set to now. -/
theorem C4_polling_login (now : Int) (loginResp refreshResp : Response)
    (polls : Nat → Response) (s : ClientState) (k : Nat) (a r u pid : String)
    (hk : k < 60) (hal : alreadyLogged s = false) (he : truthy s.email = true)
    (h1 : loginResp.status = 200) (h2 : loginResp.polling_id = some pid)
    (h202 : ∀ j, j < k → (polls j).status = 202)
    (h200 : (polls k).status = 200) (ha : (polls k).access_token = some a)
    (hr : (polls k).refresh_token = some r) (hu : (polls k).startup_user_id = some u) :
    (login now loginResp polls refreshResp s).1 = .ok () ∧
    (login now loginResp polls refreshResp s).2.1 = newCreds s a r u now ∧
    countEvent (Event.httpPost AUTH_ENDPOINT)
      (login now loginResp polls refreshResp s).2.2 = k + 1 ∧
    countEvent (Event.sleep 10) (login now loginResp polls refreshResp s).2.2 = k := by
  have hl := login_success_events now loginResp refreshResp polls s k a r u pid hal he h1 h2
    hk h202 h200 ha hr hu
  rw [hl]
  refine ⟨rfl, rfl, ?_, ?_⟩
  · cases hsf : s.store_function <;>
      simp [countEvent, countEvent_append, countEvent_join_replicate, storeEvents,
        newCreds, hsf, login_endpoint_ne_auth_endpoint]
  · cases hsf : s.store_function <;>
      simp [countEvent, countEvent_append, countEvent_join_replicate, storeEvents,
        newCreds, hsf]

theorem C4_witness :
    (login 7 loginOk pollsThree { status := 500 } baseState).1 = .ok () ∧
    (login 7 loginOk pollsThree { status := 500 } baseState).2.1 =
      newCreds baseState "A1" "R1" "U1" 7 ∧
    countEvent (Event.httpPost AUTH_ENDPOINT)
      (login 7 loginOk pollsThree { status := 500 } baseState).2.2 = 4 ∧
    countEvent (Event.sleep 10)
      (login 7 loginOk pollsThree { status := 500 } baseState).2.2 = 3 := by
  exact C4_polling_login 7 loginOk { status := 500 } pollsThree baseState 3 "A1" "R1" "U1" "P1"
    (by decide) (by decide) (by decide) (by decide) (by decide)
    (by decide) (by decide) (by decide) (by decide) (by decide)

/-- C5: a 200 login response followed by 60 consecutive 202 poll responses makes
the flow terminate normally with no error raised, exactly 60 poll requests (each
followed by a 10-second sleep), and the whole client state unchanged. -/
theorem C5_sixty_pending (now : Int) (loginResp refreshResp : Response)
    (polls : Nat → Response) (s : ClientState) (pid : String)
    (hal : alreadyLogged s = false) (he : truthy s.email = true)
    (h1 : loginResp.status = 200) (h2 : loginResp.polling_id = some pid)
    (h202 : ∀ j, j < 60 → (polls j).status = 202) :
    login now loginResp polls refreshResp s =
      (.ok (), s,
       Event.httpPost LOGIN_ENDPOINT ::
         List.flatten (List.replicate 60 [Event.httpPost AUTH_ENDPOINT, Event.sleep 10])) ∧
    countEvent (Event.httpPost AUTH_ENDPOINT)
      (login now loginResp polls refreshResp s).2.2 = 60 := by
  have hps := pollLoop_all202 polls now s 60 0 (fun j hj => by simpa using h202 j hj)
  have hl : login now loginResp polls refreshResp s =
      (.ok (), s,
       Event.httpPost LOGIN_ENDPOINT ::
         List.flatten (List.replicate 60 [Event.httpPost AUTH_ENDPOINT, Event.sleep 10])) := by
    simp [login, hal, he, h1, h2, hps]
  refine ⟨hl, ?_⟩
  rw [hl]
  simp [countEvent, countEvent_join_replicate, login_endpoint_ne_auth_endpoint]

theorem C5_witness :
    login 7 loginOk polls202 { status := 500 } baseState =
      (.ok (), baseState,
       Event.httpPost LOGIN_ENDPOINT ::
         List.flatten (List.replicate 60 [Event.httpPost AUTH_ENDPOINT, Event.sleep 10])) ∧
    countEvent (Event.httpPost AUTH_ENDPOINT)
      (login 7 loginOk polls202 { status := 500 } baseState).2.2 = 60 := by
  exact C5_sixty_pending 7 loginOk { status := 500 } polls202 baseState "P1"
    (by decide) (by decide) (by decide) (by decide) (by decide)

/-- C9: when the first poll response is a 200 whose body has `access_token` and
`refresh_token` but no `startup_data.user.user_id`, `_login` raises the
missing-key error only after having already assigned `access_token`,
`refresh_token` and `last_time_token_refreshed`, leaving `user_id` at its prior
value: the state is left mixed, so the update is not atomic. -/
theorem C9_missing_user_id (now : Int) (loginResp refreshResp : Response)
    (polls : Nat → Response) (s : ClientState) (a r pid : String)
    (hal : alreadyLogged s = false) (he : truthy s.email = true)
    (h1 : loginResp.status = 200) (h2 : loginResp.polling_id = some pid)
    (h200 : (polls 0).status = 200) (ha : (polls 0).access_token = some a)
    (hr : (polls 0).refresh_token = some r) (hu : (polls 0).startup_user_id = none) :
    login now loginResp polls refreshResp s =
      (.error (.keyError "startup_data.user.user_id"),
       { s with access_token := some a, refresh_token := some r,
                last_time_token_refreshed := some now },
       [Event.httpPost LOGIN_ENDPOINT, Event.httpPost AUTH_ENDPOINT]) := by
  have hps : pollLoop polls now s 0 60 =
      (.error (.keyError "startup_data.user.user_id"),
       { s with access_token := some a, refresh_token := some r,
                last_time_token_refreshed := some now },
       [Event.httpPost AUTH_ENDPOINT]) := by
    rw [show (60 : Nat) = 59 + 1 from rfl]
    simp [pollLoop, h200, ha, hr, hu]
  simp [login, hal, he, h1, h2, hps]

theorem C9_witness :
    login 7 loginOk pollsNoUser { status := 500 } baseState =
      (.error (.keyError "startup_data.user.user_id"),
       { baseState with access_token := some "A1", refresh_token := some "R1",
                        last_time_token_refreshed := some 7 },
       [Event.httpPost LOGIN_ENDPOINT, Event.httpPost AUTH_ENDPOINT]) := by
  exact C9_missing_user_id 7 loginOk { status := 500 } pollsNoUser baseState "A1" "R1" "P1"
    (by decide) (by decide) (by decide) (by decide) (by decide) (by decide) (by decide)
    (by decide)

/-- C6 counterexample: a successful `signup_by_email` acquires credentials while a
persistence callback is configured (`store_function = true`), yet the trace holds
only the signup POST and no callback invocation: the method never calls
`self.store_function`, contradicting the claim that every successful acquisition
(including signup) invokes it exactly once. -/
theorem C6_counterexample_signup_no_store :
    ({ baseState with store_function := true } : ClientState).store_function = true ∧
    signup_by_email 7
        { status := 200, access_token := some "A1", refresh_token := some "R1",
          startup_user_id := some "U1" }
        { baseState with store_function := true } =
      (.ok (),
       { baseState with store_function := true, access_token := some "A1",
                        refresh_token := some "R1", user_id := some "U1",
                        last_time_token_refreshed := some 7 },
       [Event.httpPost SIGNUP_BY_EMAIL_ENDPOINT]) :=
  ⟨rfl, rfl⟩

/-- C6 (amended): with a callback configured, a successful refresh invokes the
callback exactly once with the complete post-update snapshot, and a successful
polling login leads to exactly one callback invocation carrying the complete
post-update snapshot; but a successful `signup_by_email` never invokes the
callback (its trace is just the signup POST). -/
theorem C6_amended_callback :
    (∀ (now : Int) (resp : Response) (s : ClientState) (a r : String),
      refreshSkip now s = false → s.store_function = true →
      resp.status = 200 → resp.access_token = some a → resp.refresh_token = some r →
      (refreshToken now resp s).2.2 =
        [Event.httpPost REFRESH_ENDPOINT,
         Event.store (some a) (some r) s.user_id (some now)]) ∧
    (∀ (now : Int) (loginResp refreshResp : Response) (polls : Nat → Response)
        (s : ClientState) (k : Nat) (a r u pid : String),
      alreadyLogged s = false → truthy s.email = true → s.store_function = true →
      loginResp.status = 200 → loginResp.polling_id = some pid → k < 60 →
      (∀ j, j < k → (polls j).status = 202) →
      (polls k).status = 200 → (polls k).access_token = some a →
      (polls k).refresh_token = some r → (polls k).startup_user_id = some u →
      countEvent (Event.store (some a) (some r) (some u) (some now))
        (login now loginResp polls refreshResp s).2.2 = 1) ∧
    (∀ (now : Int) (resp : Response) (s : ClientState) (a r u : String),
      resp.status = 200 → resp.access_token = some a → resp.refresh_token = some r →
      resp.startup_user_id = some u → s.store_function = true →
      (signup_by_email now resp s).2.2 = [Event.httpPost SIGNUP_BY_EMAIL_ENDPOINT]) := by
  refine ⟨?_, ?_, ?_⟩
  · intro now resp s a r hskip hsf h200 ha hr
    simp [refreshToken, hskip, h200, ha, hr, storeEvents, hsf]
  · intro now loginResp refreshResp polls s k a r u pid hal he hsf h1 h2 hk h202 h200 ha hr hu
    have hl := login_success_events now loginResp refreshResp polls s k a r u pid hal he h1 h2
      hk h202 h200 ha hr hu
    rw [hl]
    simp [countEvent, countEvent_append, countEvent_join_replicate, storeEvents, newCreds, hsf]
  · intro now resp s a r u h200 ha hr hu hsf
    simp [signup_by_email, h200, ha, hr, hu]

theorem C6_amended_witness :
    (refreshToken 5 { status := 200, access_token := some "A2", refresh_token := some "R2" }
        { authedNoLast with store_function := true }).2.2 =
      [Event.httpPost REFRESH_ENDPOINT,
       Event.store (some "A2") (some "R2") (some "U0") (some 5)] := by
  exact C6_amended_callback.1 5 _ { authedNoLast with store_function := true } "A2" "R2"
    (by decide) (by decide) (by decide) rfl rfl

/-- C7 counterexample: a refresh request answered 200 with `access_token` present
but `refresh_token` missing overwrites `access_token` and then raises `KeyError`,
leaving `refresh_token` and `last_time_token_refreshed` untouched: the operation
neither leaves the three fields unchanged nor assigns all three in one step. -/
theorem C7_counterexample_partial_refresh :
    (refreshToken 9 { status := 200, access_token := some "A2" } authedNoLast).2.1 =
      { authedNoLast with access_token := some "A2" } ∧
    authedNoLast.access_token = some "A0" ∧
    ¬ atomicTriple 9 authedNoLast
        (refreshToken 9 { status := 200, access_token := some "A2" } authedNoLast).2.1 := by
  refine ⟨rfl, rfl, ?_⟩
  decide

theorem refreshToken_atomic (now : Int) (resp : Response) (s : ClientState)
    (hwf : wellFormedBody resp) : atomicTriple now s (refreshToken now resp s).2.1 := by
  cases hs : refreshSkip now s
  · by_cases h200 : resp.status = 200
    · obtain ⟨ha, hr⟩ := hwf h200
      rcases hx : resp.access_token with _ | a
      · rw [hx] at ha; simp at ha
      rcases hy : resp.refresh_token with _ | r
      · rw [hy] at hr; simp at hr
      simp [refreshToken, hs, h200, hx, hy, atomicTriple]
    · simp [refreshToken, hs, h200, atomicTriple]
  · simp [refreshToken, hs, atomicTriple]

theorem pollLoop_atomic (polls : Nat → Response) (now : Int) (s : ClientState)
    (hwf : ∀ i, wellFormedBody (polls i)) :
    ∀ fuel i, atomicTriple now s (pollLoop polls now s i fuel).2.1 := by
  intro fuel
  induction fuel with
  | zero =>
    intro i
    simp [pollLoop, atomicTriple]
  | succ n ih =>
    intro i
    by_cases h200 : (polls i).status = 200
    · obtain ⟨ha, hr⟩ := hwf i h200
      rcases hx : (polls i).access_token with _ | a
      · rw [hx] at ha; simp at ha
      rcases hy : (polls i).refresh_token with _ | r
      · rw [hy] at hr; simp at hr
      rcases hz : (polls i).startup_user_id with _ | u
      · simp [pollLoop, h200, hx, hy, hz, atomicTriple]
      · simp [pollLoop, h200, hx, hy, hz, atomicTriple]
    · by_cases h202 : (polls i).status = 202
      · simpa [pollLoop, h200, h202] using ih (i + 1)
      · simp [pollLoop, h200, h202, atomicTriple]

theorem login_atomic (now : Int) (loginResp refreshResp : Response) (polls : Nat → Response)
    (s : ClientState) (hrf : wellFormedBody refreshResp)
    (hp : ∀ i, wellFormedBody (polls i)) :
    atomicTriple now s (login now loginResp polls refreshResp s).2.1 := by
  cases hal : alreadyLogged s
  · cases hg : (!truthy s.access_token && !truthy s.email)
    · by_cases h1 : loginResp.status = 200
      · rcases hpid : loginResp.polling_id with _ | pid
        · simp [login, hal, hg, h1, hpid, atomicTriple]
        · simpa [login, hal, hg, h1, hpid] using pollLoop_atomic polls now s hp 60 0
      · simp [login, hal, hg, h1, atomicTriple]
    · simp [login, hal, hg, atomicTriple]
  · simpa [login, hal] using refreshToken_atomic now refreshResp s hrf

theorem get_items_state (now : Int) (loginResp refreshResp itemsResp : Response)
    (polls : Nat → Response) (s : ClientState) :
    (get_items now loginResp polls refreshResp itemsResp s).2.1 =
      (login now loginResp polls refreshResp s).2.1 := by
  cases hl : (login now loginResp polls refreshResp s).1
  · simp [get_items, hl]
  · by_cases h200 : itemsResp.status = 200
    · rcases hit : itemsResp.items with _ | xs
      · simp [get_items, hl, h200, hit]
      · simp [get_items, hl, h200, hit]
    · simp [get_items, hl, h200]

theorem signup_atomic (now : Int) (resp : Response) (s : ClientState)
    (hwf : wellFormedBody resp) : atomicTriple now s (signup_by_email now resp s).2.1 := by
  by_cases h200 : resp.status = 200
  · obtain ⟨ha, hr⟩ := hwf h200
    rcases hx : resp.access_token with _ | a
    · rw [hx] at ha; simp at ha
    rcases hy : resp.refresh_token with _ | r
    · rw [hy] at hr; simp at hr
    rcases hz : resp.startup_user_id with _ | u
    · simp [signup_by_email, h200, hx, hy, hz, atomicTriple]
    · simp [signup_by_email, h200, hx, hy, hz, atomicTriple]
  · simp [signup_by_email, h200, atomicTriple]

/-- C7 (amended): provided every 200 response body carries the `access_token` and
`refresh_token` keys the code reads unconditionally, each operation of the client
(refresh, login, get_items, signup) either leaves `access_token`, `refresh_token`
and `last_time_token_refreshed` all unchanged or assigns all three in the same
step (both tokens populated, timestamp set to the operation time).  Without that
proviso the code violates the invariant, see the counterexample. -/
theorem C7_amended_atomic_triple :
    (∀ (now : Int) (resp : Response) (s : ClientState), wellFormedBody resp →
      atomicTriple now s (refreshToken now resp s).2.1) ∧
    (∀ (now : Int) (loginResp refreshResp : Response) (polls : Nat → Response)
        (s : ClientState), wellFormedBody refreshResp → (∀ i, wellFormedBody (polls i)) →
      atomicTriple now s (login now loginResp polls refreshResp s).2.1) ∧
    (∀ (now : Int) (loginResp refreshResp itemsResp : Response) (polls : Nat → Response)
        (s : ClientState), wellFormedBody refreshResp → (∀ i, wellFormedBody (polls i)) →
      atomicTriple now s (get_items now loginResp polls refreshResp itemsResp s).2.1) ∧
    (∀ (now : Int) (resp : Response) (s : ClientState), wellFormedBody resp →
      atomicTriple now s (signup_by_email now resp s).2.1) := by
  refine ⟨?_, ?_, ?_, ?_⟩
  · intro now resp s hwf
    exact refreshToken_atomic now resp s hwf
  · intro now loginResp refreshResp polls s hrf hp
    exact login_atomic now loginResp refreshResp polls s hrf hp
  · intro now loginResp refreshResp itemsResp polls s hrf hp
    rw [get_items_state]
    exact login_atomic now loginResp refreshResp polls s hrf hp
  · intro now resp s hwf
    exact signup_atomic now resp s hwf

theorem C7_amended_witness :
    atomicTriple 5 authedNoLast
      (refreshToken 5 { status := 200, access_token := some "A2", refresh_token := some "R2" }
        authedNoLast).2.1 := by
  exact C7_amended_atomic_triple.1 5
    { status := 200, access_token := some "A2", refresh_token := some "R2" }
    authedNoLast (by decide)

/-- C8: from an authenticated state whose token is within its lifetime
(`0 ≤ now - t ≤ access_token_lifetime`), `get_items` makes only the item-search
POST: a 200 response returns exactly the `items` array of the body and any other
status raises `TgtgAPIError(status, content)`; in both cases the whole client
state is unchanged. -/
theorem C8_get_items (now t : Int) (loginResp refreshResp itemsResp : Response)
    (polls : Nat → Response) (s : ClientState) (xs : List String)
    (ha : truthy s.access_token = true) (hu : truthy s.user_id = true)
    (hl : s.last_time_token_refreshed = some t)
    (h0 : 0 ≤ now - t) (h1 : now - t ≤ s.access_token_lifetime) :
    (itemsResp.status = 200 → itemsResp.items = some xs →
      get_items now loginResp polls refreshResp itemsResp s =
        (.ok xs, s, [Event.httpPost API_ITEM_ENDPOINT])) ∧
    (itemsResp.status ≠ 200 →
      get_items now loginResp polls refreshResp itemsResp s =
        (.error (.apiError itemsResp.status itemsResp.content), s,
         [Event.httpPost API_ITEM_ENDPOINT])) := by
  have hal : alreadyLogged s = true := by simp [alreadyLogged, ha, hu]
  have hskip := refreshSkip_of_within now t s hl h0 h1
  have hlog : login now loginResp polls refreshResp s = (.ok (), s, []) := by
    simp [login, hal, refreshToken, hskip]
  constructor
  · intro h200 hit
    simp [get_items, hlog, h200, hit]
  · intro hne
    simp [get_items, hlog, hne]

theorem C8_witness :
    get_items 100 loginOk polls202 { status := 500 }
        { status := 200, items := some ["itemdoc"] } authedState =
      (.ok ["itemdoc"], authedState, [Event.httpPost API_ITEM_ENDPOINT]) := by
  exact (C8_get_items 100 0 loginOk { status := 500 }
      { status := 200, items := some ["itemdoc"] } polls202 authedState ["itemdoc"]
      (by decide) (by decide) (by decide) (by decide) (by decide)).1 (by decide) rfl

end Tgtg
